import Mathlib

/-!
Shallow embedding of `analytics/management/commands/realm_stats.py`: a
read-only Django management command that prints, per realm, activity
statistics (active users, stream counts, message counts by category over
1/7/30-day windows, feature-usage percentages and grouped per-user counts).

The relational store is modelled as an explicit record of tables (`DB`);
Django querysets become list filters, `count()` becomes `List.length`,
`values(k).annotate(count=Count(k))` becomes grouping with per-key counts,
and foreign-key joins (`sender__realm`, `user_profile__realm`) become
lookups by primary key. Timestamps are integers (seconds);
`timezone_now()` is an explicit `now` parameter and
`timedelta(days=d)` is `86400 * d`.
-/

namespace RealmStats

/-- A tenant (`zerver.models.Realm`): primary key and its `string_id`. -/
structure Realm where
  id : Nat
  string_id : String
deriving DecidableEq, Repr

/-- A realm member (`zerver.models.UserProfile`) with the fields this
command reads: realm foreign key, active flag, and the two preference
flags the report prints percentages for. -/
structure UserProfile where
  id : Nat
  realm : Nat
  is_active : Bool
  enable_desktop_notifications : Bool
  enter_sends : Bool
deriving DecidableEq, Repr

/-- A message (`zerver.models.Message`): sender foreign key, send time,
the sending client's name (the `sending_client__name` join collapsed to a
field), the recipient's type (the `recipient__type` join collapsed to a
field) and raw content. -/
structure Message where
  sender : Nat
  date_sent : Int
  client_name : String
  recipientType : Nat
  content : String
deriving DecidableEq, Repr

/-- A stream (`zerver.models.Stream`). -/
structure Stream where
  id : Nat
  realm : Nat
  name : String
deriving DecidableEq, Repr

/-- A recipient row (`zerver.models.Recipient`): discriminates personal /
stream / huddle conversations; `type_id` points at the stream for stream
recipients. -/
structure Recipient where
  id : Nat
  type : Nat
  type_id : Nat
deriving DecidableEq, Repr

/-- `Recipient.PERSONAL`: one-on-one direct conversation. -/
def Recipient.PERSONAL : Nat := 1

/-- `Recipient.STREAM`: stream conversation (the hardcoded
`zerver_recipient.type = 2` in the command's stream query). -/
def Recipient.STREAM : Nat := 2

/-- `Recipient.HUDDLE`: group direct conversation. -/
def Recipient.HUDDLE : Nat := 3

/-- A subscription row (`zerver.models.Subscription`) with the fields the
command reads: subscriber, recipient foreign key, active / muted /
desktop-notification flags. -/
structure Subscription where
  user_profile : Nat
  recipient : Nat
  active : Bool
  is_muted : Bool
  desktop_notifications : Bool
deriving DecidableEq, Repr

/-- A user-activity row (`zerver.models.UserActivity`): the per-endpoint
last-visit record the 7-day active-user heuristic reads, with the
`client__name` join collapsed to a field. -/
structure UserActivity where
  user_profile : Nat
  last_visit : Int
  query : String
  client_name : String
deriving DecidableEq, Repr

/-- A user-message row (`zerver.models.UserMessage`): per-user per-message
flag bits (bit 1 is `starred`). -/
structure UserMessage where
  user_profile : Nat
  message : Nat
  flags : Nat
deriving DecidableEq, Repr

/-- The relational store the command reads: one list per table. -/
structure DB where
  realms : List Realm
  user_profiles : List UserProfile
  messages : List Message
  streams : List Stream
  recipients : List Recipient
  subscriptions : List Subscription
  user_activities : List UserActivity
  user_messages : List UserMessage
deriving DecidableEq, Repr

/-- `MOBILE_CLIENT_LIST = ["Android", "ios"]`. -/
def MOBILE_CLIENT_LIST : List String := ["Android", "ios"]

/-- `HUMAN_CLIENT_LIST = MOBILE_CLIENT_LIST + ["website"]`. -/
def HUMAN_CLIENT_LIST : List String := MOBILE_CLIENT_LIST ++ ["website"]

/-- `sending_client__name__in=HUMAN_CLIENT_LIST`: the message was sent by
a client whose name is in the human-client list. -/
def isHumanMessage (m : Message) : Bool :=
  HUMAN_CLIENT_LIST.contains m.client_name

/-- The module-level queryset
`human_messages = Message.objects.filter(sending_client__name__in=HUMAN_CLIENT_LIST)`. -/
def human_messages_all (db : DB) : List Message :=
  db.messages.filter isHumanMessage

/-- The realm of a message's sender, by following the `sender` foreign
key (`none` when the sender id matches no user row). -/
def sender_realm (db : DB) (m : Message) : Option Nat :=
  (db.user_profiles.find? fun u => u.id == m.sender).map UserProfile.realm

/-- `timezone_now() - datetime.timedelta(days=days_ago)` with timestamps
in seconds. -/
def cutoff (now : Int) (days_ago : Nat) : Int :=
  now - 86400 * days_ago

/-- The queryset
`human_messages.filter(sender__realm=realm, date_sent__gt=sent_time_cutoff)`
shared by `human_messages`, `stream_messages`, `private_messages` and
`group_private_messages`. -/
def realm_window_messages (db : DB) (now : Int) (realm : Realm) (days_ago : Nat) :
    List Message :=
  (human_messages_all db).filter fun m =>
    sender_realm db m == some realm.id && cutoff now days_ago < m.date_sent

/-- `messages_sent_by`: count of human messages sent by `user` after the
cutoff. -/
def messages_sent_by (db : DB) (now : Int) (user : UserProfile) (days_ago : Nat) : Nat :=
  ((human_messages_all db).filter fun m =>
    m.sender == user.id && cutoff now days_ago < m.date_sent).length

/-- `total_messages`: count of all messages (any client) from the realm
after the cutoff. -/
def total_messages (db : DB) (now : Int) (realm : Realm) (days_ago : Nat) : Nat :=
  (db.messages.filter fun m =>
    sender_realm db m == some realm.id && cutoff now days_ago < m.date_sent).length

/-- `human_messages`: count of human-client messages from the realm after
the cutoff. -/
def human_messages (db : DB) (now : Int) (realm : Realm) (days_ago : Nat) : Nat :=
  (realm_window_messages db now realm days_ago).length

/-- `api_messages = total_messages - human_messages` (Python integer
subtraction, so the value lives in `ℤ`). -/
def api_messages (db : DB) (now : Int) (realm : Realm) (days_ago : Nat) : Int :=
  (total_messages db now realm days_ago : Int) - (human_messages db now realm days_ago : Int)

/-- `stream_messages`: the realm's human messages in the window whose
recipient type is `Recipient.STREAM`. -/
def stream_messages (db : DB) (now : Int) (realm : Realm) (days_ago : Nat) : Nat :=
  ((realm_window_messages db now realm days_ago).filter fun m =>
    m.recipientType == Recipient.STREAM).length

/-- `private_messages`: the realm's human messages in the window,
excluding `Recipient.STREAM` and excluding `Recipient.HUDDLE`. -/
def private_messages (db : DB) (now : Int) (realm : Realm) (days_ago : Nat) : Nat :=
  ((realm_window_messages db now realm days_ago).filter fun m =>
    !(m.recipientType == Recipient.STREAM) && !(m.recipientType == Recipient.HUDDLE)).length

/-- `group_private_messages`: the realm's human messages in the window,
excluding `Recipient.STREAM` and excluding `Recipient.PERSONAL`. -/
def group_private_messages (db : DB) (now : Int) (realm : Realm) (days_ago : Nat) : Nat :=
  ((realm_window_messages db now realm days_ago).filter fun m =>
    !(m.recipientType == Recipient.STREAM) && !(m.recipientType == Recipient.PERSONAL)).length

/-- The local queryset
`user_profiles = UserProfile.objects.filter(realm=realm, is_active=True)`. -/
def user_profiles (db : DB) (realm : Realm) : List UserProfile :=
  db.user_profiles.filter fun u => u.realm == realm.id && u.is_active

/-- `active_users`: users of the realm with an active profile who hit the
`/json/users/me/pointer` endpoint via the `website` client in the last 7
days; the `user_profile` join of each matching `UserActivity` row. -/
def active_users (db : DB) (now : Int) (realm : Realm) : List UserProfile :=
  (db.user_activities.filter fun a =>
    (db.user_profiles.find? fun u => u.id == a.user_profile).any
        (fun u => u.realm == realm.id && u.is_active) &&
      cutoff now 7 < a.last_visit &&
      a.query == "/json/users/me/pointer" &&
      a.client_name == "website").filterMap
    fun a => db.user_profiles.find? fun u => u.id == a.user_profile

/-- The realm's streams having at least one active subscription: the
`Stream.objects.filter(realm=realm).extra(...)` join on
`zerver_subscription` / `zerver_recipient` with `recipient.type = 2`,
grouped per stream, then counted. -/
def streams_count (db : DB) (realm : Realm) : Nat :=
  ((db.streams.filter fun st => st.realm == realm.id).filter fun st =>
    db.subscriptions.any fun sub =>
      db.recipients.any fun r =>
        sub.recipient == r.id && r.type == Recipient.STREAM &&
          r.type_id == st.id && sub.active).length

/-- `.values(key).annotate(count=Count(key))`: group the rows by `key`
and record each distinct key with the number of rows carrying it. -/
def group_counts {α β : Type} [DecidableEq β] (key : α → β) (l : List α) :
    List (β × Nat) :=
  ((l.map key).dedup).map fun k => (k, l.countP fun x => key x == k)

/-- `UserMessage.flags.starred` is flag bit 1: the django-bitfield
equality filter `flags=UserMessage.flags.starred` keeps rows whose
starred bit is set. -/
def starredFlag (flags : Nat) : Bool :=
  flags.testBit 1

/-- `starrers`: user-message rows of the realm's active users carrying
the starred flag, grouped per user with counts. -/
def starrers (db : DB) (realm : Realm) : List (Nat × Nat) :=
  group_counts (fun um => um.user_profile)
    (db.user_messages.filter fun um =>
      ((user_profiles db realm).any fun u => u.id == um.user_profile) &&
        starredFlag um.flags)

/-- The local queryset `active_user_subs`: active subscriptions of the
realm's active users. -/
def active_user_subs (db : DB) (realm : Realm) : List Subscription :=
  db.subscriptions.filter fun s =>
    ((user_profiles db realm).any fun u => u.id == s.user_profile) && s.active

/-- `non_home_view`: muted subscriptions among `active_user_subs`,
grouped per user with counts. -/
def non_home_view (db : DB) (realm : Realm) : List (Nat × Nat) :=
  group_counts Subscription.user_profile
    ((active_user_subs db realm).filter Subscription.is_muted)

/-- `content__contains=pat`: raw substring containment on message
content. -/
def strContains (s pat : String) : Bool :=
  decide (pat.toList <:+: s.toList)

/-- `markup_messages`: the realm's human messages containing the `~~~`
code-block token, grouped per sender with counts. -/
def markup_messages (db : DB) (realm : Realm) : List (Nat × Nat) :=
  group_counts Message.sender
    ((human_messages_all db).filter fun m =>
      sender_realm db m == some realm.id && strContains m.content "~~~")

/-- `notifications`: subscriptions with desktop notifications among
`active_user_subs`, grouped per user with counts. -/
def notifications (db : DB) (realm : Realm) : List (Nat × Nat) :=
  group_counts Subscription.user_profile
    ((active_user_subs db realm).filter Subscription.desktop_notifications)

/-- The fraction computed by `report_percentage`: `0.0` when the
denominator is falsy (zero), `numerator / denominator` otherwise. -/
def report_fraction (numerator denominator : ℚ) : ℚ :=
  if denominator = 0 then 0 else numerator / denominator

/-- Render a rational with exactly two decimal places, as the `:.2f`
format specifier does (rounding to the nearest hundredth). -/
def format2 (q : ℚ) : String :=
  let n : ℤ := ⌊q * 100 + 1 / 2⌋
  let whole : ℤ := n / 100
  let frac : Nat := (n % 100).toNat
  let pad : String := if frac < 10 then "0" else ""
  s!"{whole}.{pad}{frac}"

/-- The line `report_percentage` prints:
`print(f"{fraction * 100:.2f}% of", text)`. -/
def report_percentage (numerator denominator : ℚ) ( text : String) : String :=
  format2 (report_fraction numerator denominator * 100) ++ "% of " ++ text

/-- The `sender_quantities` of one `days_ago` block after
`sorted(sender_quantities, reverse=True)`: the per-user sent counts of
the realm's active users, sorted descending. -/
def sorted_sender_quantities (db : DB) (now : Int) (realm : Realm) (days_ago : Nat) :
    List Nat :=
  ((user_profiles db realm).map fun u =>
    messages_sent_by db now u days_ago).insertionSort (fun a b => a ≥ b)

/-- One `days_ago` block of the per-realm report: the header, the
per-user sent counts sorted descending on one line (each followed by a
space, as `print(quantity, end=' ')` emits), then the four category
totals. -/
def window_report (db : DB) (now : Int) (realm : Realm) (days_ago : Nat) :
    List String :=
  let quantLine :=
    String.join ((sorted_sender_quantities db now realm days_ago).map fun q => s!"{q} ")
  let streamN := stream_messages db now realm days_ago
  let privateN := private_messages db now realm days_ago
  let apiN := api_messages db now realm days_ago
  let groupN := group_private_messages db now realm days_ago
  [s!"In last {days_ago} days, users sent:",
   quantLine,
   s!"{streamN} stream messages",
   s!"{privateN} one-on-one private messages",
   s!"{apiN} messages sent via the API",
   s!"{groupN} group private messages"]

/-- The first three lines of a realm's report block: identifier, active
user count, stream count. -/
def realm_report_header (db : DB) (now : Int) (realm : Realm) : List String :=
  let num_active := (active_users db now realm).length
  let total_active := (user_profiles db realm).length
  let streamsN := streams_count db realm
  let sid := realm.string_id
  [sid,
   s!"{num_active} active users ({total_active} total)",
   s!"{streamsN} streams"]

/-- The lines of a realm's report block after the three message-window
blocks: the three percentages, the four grouped "X users have ... Y ..."
lines, and the blank separator line. -/
def realm_report_footer (db : DB) (now : Int) (realm : Realm) : List String :=
  let actives := active_users db now realm
  let num_active := actives.length
  let num_notifications_enabled :=
    (actives.filter UserProfile.enable_desktop_notifications).length
  let num_enter_sends := (actives.filter UserProfile.enter_sends).length
  let all_message_count :=
    ((human_messages_all db).filter fun m =>
      sender_realm db m == some realm.id).length
  let multi_paragraph_message_count :=
    ((human_messages_all db).filter fun m =>
      sender_realm db m == some realm.id && strContains m.content "\n\n").length
  let starrersG := starrers db realm
  let starrersUsers := starrersG.length
  let starrersTotal := (starrersG.map Prod.snd).sum
  let mutedG := non_home_view db realm
  let mutedUsers := mutedG.length
  let mutedTotal := (mutedG.map Prod.snd).sum
  let markupG := markup_messages db realm
  let markupUsers := markupG.length
  let markupTotal := (markupG.map Prod.snd).sum
  let notifG := notifications db realm
  let notifUsers := notifG.length
  let notifTotal := (notifG.map Prod.snd).sum
  [report_percentage num_notifications_enabled num_active
     "active users have desktop notifications enabled",
   report_percentage num_enter_sends num_active
     "active users have enter-sends",
   report_percentage multi_paragraph_message_count all_message_count
     "all messages are multi-paragraph",
   s!"{starrersUsers} users have starred {starrersTotal} messages",
   s!"{mutedUsers} users have {mutedTotal} streams not in home view",
   s!"{markupUsers} users have used code block markup on {markupTotal} messages",
   s!"{notifUsers} users receive desktop notifications for {notifTotal} streams",
   ""]

/-- The lines the command prints for one realm, in their print order:
header, then the 1/7/30-day window blocks, then the footer. -/
def realm_report (db : DB) (now : Int) (realm : Realm) : List String :=
  realm_report_header db now realm
  ++ ([1, 7, 30].flatMap fun days_ago => window_report db now realm days_ago)
  ++ realm_report_footer db now realm

/-- The fatal error `Command.handle` raises: `CommandError` wrapping the
`Realm.DoesNotExist` for the offending identifier. -/
inductive CommandError where
  | realmDoesNotExist (string_id : String)
deriving DecidableEq, Repr

/-- Modelled from the spec: `get_realm` lives in `zerver.models`, which
is not part of this repository snapshot; per the spec, looking up an
unknown tenant identifier raises an error naming the bad identifier,
and a known identifier yields its realm. -/
def get_realm (db : DB) (string_id : String) : Except CommandError Realm :=
  match db.realms.find? fun r => r.string_id == string_id with
  | some r => .ok r
  | none => .error (.realmDoesNotExist string_id)

/-- The list comprehension
`[get_realm(string_id) for string_id in options['realms']]`: resolve the
identifiers left to right, aborting at the first unknown one. -/
def resolveRealms (db : DB) : List String → Except CommandError (List Realm)
  | [] => .ok []
  | s :: rest => do
    let r ← get_realm db s
    let rs ← resolveRealms db rest
    pure (r :: rs)

/-- `Command.handle`: with a non-empty argument list, resolve every
identifier (any unknown one aborts the run with a `CommandError` before
anything is printed); with an empty list take every realm; then print
each realm's report block in order. -/
def handle (db : DB) (now : Int) (args : List String) :
    Except CommandError (List String) :=
  match args with
  | [] => .ok (db.realms.flatMap fun realm => realm_report db now realm)
  | _ :: _ => do
    let realms ← resolveRealms db args
    pure (realms.flatMap fun realm => realm_report db now realm)

/-- The store-interaction monad: every ORM call is state passing on the
`DB` record, so the store state before and after a run is explicit. -/
def StoreM (α : Type) : Type := DB → α × DB

instance : Monad StoreM where
  pure a := fun db => (a, db)
  bind x f := fun db =>
    let p := x db
    f p.1 p.2

/-- Read the realm table (`Realm.objects...`). -/
def readRealms : StoreM (List Realm) := fun db => (db.realms, db)

/-- Read the user-profile table (`UserProfile.objects...`). -/
def readUserProfiles : StoreM (List UserProfile) := fun db => (db.user_profiles, db)

/-- Read the message table (`Message.objects...`). -/
def readMessages : StoreM (List Message) := fun db => (db.messages, db)

/-- Read the stream table (`Stream.objects...`). -/
def readStreams : StoreM (List Stream) := fun db => (db.streams, db)

/-- Read the recipient table (`Recipient.objects...`). -/
def readRecipients : StoreM (List Recipient) := fun db => (db.recipients, db)

/-- Read the subscription table (`Subscription.objects...`). -/
def readSubscriptions : StoreM (List Subscription) := fun db => (db.subscriptions, db)

/-- Read the user-activity table (`UserActivity.objects...`). -/
def readUserActivities : StoreM (List UserActivity) := fun db => (db.user_activities, db)

/-- Read the user-message table (`UserMessage.objects...`). -/
def readUserMessages : StoreM (List UserMessage) := fun db => (db.user_messages, db)

/-- Replace the realm table: the store's write API (`save` / `create` /
`delete` on realms), which the command never calls. -/
def writeRealms (l : List Realm) : StoreM Unit := fun db =>
  ((), { db with realms := l })

/-- Replace the user-profile table: write API the command never calls. -/
def writeUserProfiles (l : List UserProfile) : StoreM Unit := fun db =>
  ((), { db with user_profiles := l })

/-- Replace the message table: write API the command never calls. -/
def writeMessages (l : List Message) : StoreM Unit := fun db =>
  ((), { db with messages := l })

/-- Replace the stream table: write API the command never calls. -/
def writeStreams (l : List Stream) : StoreM Unit := fun db =>
  ((), { db with streams := l })

/-- Replace the recipient table: write API the command never calls. -/
def writeRecipients (l : List Recipient) : StoreM Unit := fun db =>
  ((), { db with recipients := l })

/-- Replace the subscription table: write API the command never calls. -/
def writeSubscriptions (l : List Subscription) : StoreM Unit := fun db =>
  ((), { db with subscriptions := l })

/-- Replace the user-activity table: write API the command never calls. -/
def writeUserActivities (l : List UserActivity) : StoreM Unit := fun db =>
  ((), { db with user_activities := l })

/-- Replace the user-message table: write API the command never calls. -/
def writeUserMessages (l : List UserMessage) : StoreM Unit := fun db =>
  ((), { db with user_messages := l })

/-- The whole command run against the store: it obtains every record
type through the read operations only and computes the report from what
it read; no write operation occurs in its definition. -/
def run_command (now : Int) (args : List String) :
    StoreM (Except CommandError (List String)) := do
  let realms ← readRealms
  let users ← readUserProfiles
  let messages ← readMessages
  let streams ← readStreams
  let recipients ← readRecipients
  let subscriptions ← readSubscriptions
  let activities ← readUserActivities
  let userMessages ← readUserMessages
  let db : DB :=
    ⟨realms, users, messages, streams, recipients, subscriptions, activities,
      userMessages⟩
  pure (handle db now args)

/-- `find?` by a key returns exactly the element carrying that key when
the keys are duplicate-free. -/
theorem find?_key_of_nodup {α β : Type} [DecidableEq β] (f : α → β) :
    ∀ (l : List α) (a : α), (l.map f).Nodup → a ∈ l →
      (l.find? fun x => f x == f a) = some a := by
  intro l
  induction l with
  | nil => intro a _ h; cases h
  | cons b l ih =>
    intro a hnd hmem
    rw [List.map_cons, List.nodup_cons] at hnd
    by_cases hb : (f b == f a) = true
    · rw [List.find?_cons, hb]
      rcases List.mem_cons.mp hmem with rfl | hmem2
      · rfl
      · exact absurd (by
          rw [beq_iff_eq.mp hb]
          exact List.mem_map_of_mem f hmem2) hnd.1
    · have hb2 : (f b == f a) = false := by simpa using hb
      rw [List.find?_cons, hb2]
      rcases List.mem_cons.mp hmem with rfl | hmem2
      · exact absurd (beq_self_eq_true (f a)) hb
      · exact ih a hnd.2 hmem2

/-- At most one element carries a given key when keys are
duplicate-free. -/
theorem countP_key_le_one {α β : Type} [DecidableEq β] (f : α → β) (c : β) :
    ∀ l : List α, (l.map f).Nodup → (l.countP fun x => f x == c) ≤ 1 := by
  intro l
  induction l with
  | nil => simp
  | cons b l ih =>
    intro hnd
    rw [List.map_cons, List.nodup_cons] at hnd
    rw [List.countP_cons]
    by_cases hb : (f b == c) = true
    · have h0 : (l.countP fun x => f x == c) = 0 := by
        apply List.countP_eq_zero.mpr
        intro x hx hfx
        apply hnd.1
        have hxc : f x = c := by simpa using hfx
        have hbc : f b = c := by simpa using hb
        rw [hbc, ← hxc]
        exact List.mem_map_of_mem f hx
      simp [h0, hb]
    · simp [hb]
      exact ih hnd.2

/-- Sums of pointwise-added maps split. -/
theorem sum_map_add {α : Type} (f g : α → Nat) :
    ∀ l : List α, (l.map fun x => f x + g x).sum = (l.map f).sum + (l.map g).sum := by
  intro l
  induction l with
  | nil => simp
  | cons a l ih =>
    simp only [List.map_cons, List.sum_cons, ih]
    omega

/-- The sum of an indicator map is a `countP`. -/
theorem sum_map_indicator {α : Type} (p : α → Bool) :
    ∀ l : List α, (l.map fun x => if p x then 1 else 0).sum = l.countP p := by
  intro l
  induction l with
  | nil => simp
  | cons a l ih =>
    rw [List.map_cons, List.sum_cons, List.countP_cons, ih]
    omega

/-- Double counting: when, for every row, at most `if q row then 1 else 0`
of the outer elements select it, the total of the per-element counts is
bounded by the `q`-count of the rows. -/
theorem sum_countP_le {α γ : Type} (p : α → γ → Bool) (q : γ → Bool) (ups : List α) :
    ∀ msgs : List γ,
      (∀ m, (ups.countP fun u => p u m) ≤ if q m then 1 else 0) →
      (ups.map fun u => msgs.countP (p u)).sum ≤ msgs.countP q := by
  intro msgs
  induction msgs with
  | nil => intro _; simp
  | cons m ms ih =>
    intro hb
    simp only [List.countP_cons]
    rw [sum_map_add (fun u => ms.countP (p u)) (fun u => if p u m then 1 else 0) ups,
      sum_map_indicator]
    have h1 := ih hb
    have h2 := hb m
    by_cases hq : q m = true
    · simp only [hq, if_true] at h2 ⊢
      omega
    · simp only [hq] at h2 ⊢
      omega

/-- A list of positive naturals is at least as long as its sum. -/
theorem length_le_sum_of_one_le :
    ∀ ns : List Nat, (∀ n ∈ ns, 1 ≤ n) → ns.length ≤ ns.sum := by
  intro ns
  induction ns with
  | nil => simp
  | cons n ns ih =>
    intro h
    have h1 := h n (by simp)
    have h2 := ih fun x hx => h x (by simp [hx])
    simp only [List.length_cons, List.sum_cons]
    omega

/-- Every group produced by `group_counts` is nonempty, so the group
count is bounded by the total of the per-group counts. -/
theorem group_counts_length_le_sum {α β : Type} [DecidableEq β] (key : α → β)
    (l : List α) :
    (group_counts key l).length ≤ ((group_counts key l).map Prod.snd).sum := by
  have key1 : ((group_counts key l).map Prod.snd)
      = ((l.map key).dedup).map fun k => l.countP fun x => key x == k := by
    unfold group_counts
    rw [List.map_map]
    rfl
  have key2 : (group_counts key l).length
      = (((l.map key).dedup).map fun k => l.countP fun x => key x == k).length := by
    unfold group_counts
    rw [List.length_map, List.length_map]
  rw [key1, key2]
  apply length_le_sum_of_one_le
  intro n hn
  rcases List.mem_map.mp hn with ⟨k, hk, rfl⟩
  have hk2 : k ∈ l.map key := List.mem_dedup.mp hk
  rcases List.mem_map.mp hk2 with ⟨x, hx, rfl⟩
  have hpos : 0 < l.countP fun y => key y == key x :=
    List.countP_pos_iff.mpr ⟨x, hx, by simp⟩
  omega

/-- Fixture realm for concrete evaluations. -/
def exRealm : Realm := ⟨0, "zulip"⟩

/-- A second fixture realm with a distinct identifier. -/
def exRealm2 : Realm := ⟨1, "lean"⟩

/-- Fixture active user of `exRealm`. -/
def exUser : UserProfile := ⟨0, 0, true, true, false⟩

/-- Fixture human-client message whose recipient type (4) is none of
`PERSONAL`, `STREAM`, `HUDDLE`. -/
def exOtherMsg : Message := ⟨0, 0, "website", 4, "hi"⟩

/-- Fixture store: one realm, one active user, one human message with an
out-of-range recipient type. -/
def exDB : DB := ⟨[exRealm], [exUser], [exOtherMsg], [], [], [], [], []⟩

/-- Fixture store with two realms. -/
def exDB2 : DB := ⟨[exRealm, exRealm2], [exUser], [exOtherMsg], [], [], [], [], []⟩

/-- C2: a percentage with a zero denominator is printed as `0.00%` with
the fraction short-circuited to zero (no division happens), and with a
nonzero denominator the printed value is `numerator / denominator
* 100`. -/
theorem claim_c2_zero_denominator_prints_zero_percent :
    ∀ (numerator denominator : ℚ) ( text : String),
      (denominator = 0 →
        report_fraction numerator denominator = 0 ∧
        report_percentage numerator denominator text = "0.00% of " ++ text) ∧
      (denominator ≠ 0 →
        report_fraction numerator denominator * 100 =
          numerator / denominator * 100) := by
  intro n d t
  constructor
  · intro hd
    subst hd
    refine ⟨by simp [report_fraction], ?_⟩
    show format2 (report_fraction n 0 * 100) ++ "% of " ++ t = "0.00% of " ++ t
    have h1 : report_fraction n 0 * 100 = 0 := by simp [report_fraction]
    have h2 : format2 0 = "0.00" := by
      have h : ⌊(0 : ℚ) * 100 + 1 / 2⌋ = 0 := by
        rw [Int.floor_eq_iff]
        norm_num
      simp only [format2, h]
      decide
    rw [h1, h2]
    rfl
  · intro hd
    simp [report_fraction, hd]

/-- C3: for every realm and window the total message count is the human
count plus the API count, the API count being total minus human rather
than a separate query. -/
theorem claim_c3_total_splits_into_human_and_api :
    ∀ (db : DB) (now : Int) (realm : Realm) (days_ago : Nat),
      api_messages db now realm days_ago =
        (total_messages db now realm days_ago : Int) -
          (human_messages db now realm days_ago : Int) ∧
      (total_messages db now realm days_ago : Int) =
        (human_messages db now realm days_ago : Int) +
          api_messages db now realm days_ago := by
  intro db now realm d
  unfold api_messages
  omega

/-- C6: a message counts as human traffic exactly when its sending
client's name is in the fixed list `["Android", "ios", "website"]`
(the two mobile identifiers plus the web client). -/
theorem claim_c6_human_iff_client_in_fixed_list :
    HUMAN_CLIENT_LIST = ["Android", "ios", "website"] ∧
    ∀ m : Message, (isHumanMessage m = true ↔
      (m.client_name = "Android" ∨ m.client_name = "ios" ∨
        m.client_name = "website")) := by
  refine ⟨rfl, ?_⟩
  intro m
  simp [isHumanMessage, HUMAN_CLIENT_LIST, MOBILE_CLIENT_LIST]

/-- C8: the whole run leaves the store exactly as it found it — it is
built from the read operations alone, so for every store state, input
list and clock the final state equals the initial one (and the output is
the pure report). -/
theorem claim_c8_run_command_leaves_store_unchanged :
    ∀ (db : DB) (now : Int) (args : List String),
      run_command now args db = (handle db now args, db) := by
  intro db now args
  rfl

/-- C10: in each of the four grouped report lines (starred messages,
muted streams, code-block markup, stream desktop notifications) the item
total is at least the user count, every counted user contributing at
least 1. -/
theorem claim_c10_grouped_totals_dominate_user_counts :
    ∀ (db : DB) (realm : Realm),
      (starrers db realm).length ≤ ((starrers db realm).map Prod.snd).sum ∧
      (non_home_view db realm).length ≤
        ((non_home_view db realm).map Prod.snd).sum ∧
      (markup_messages db realm).length ≤
        ((markup_messages db realm).map Prod.snd).sum ∧
      (notifications db realm).length ≤
        ((notifications db realm).map Prod.snd).sum := by
  intro db realm
  exact ⟨group_counts_length_le_sum _ _, group_counts_length_le_sum _ _,
    group_counts_length_le_sum _ _, group_counts_length_le_sum _ _⟩

/-- Per-message accounting of the three category predicates: a stream
message is counted once (stream), a personal message once (private), a
huddle message once (group), and a message of any other recipient type
twice (private and group). -/
theorem tri_ind (t : Nat) :
    (if t == Recipient.STREAM then 1 else 0)
      + (if !(t == Recipient.STREAM) && !(t == Recipient.HUDDLE) then 1 else 0)
      + (if !(t == Recipient.STREAM) && !(t == Recipient.PERSONAL) then 1 else 0)
    = 1 + (if !(t == Recipient.PERSONAL) && !(t == Recipient.STREAM)
            && !(t == Recipient.HUDDLE) then 1 else 0) := by
  simp only [Recipient.PERSONAL, Recipient.STREAM, Recipient.HUDDLE]
  by_cases h1 : t = 1
  · subst h1; decide
  by_cases h2 : t = 2
  · subst h2; decide
  by_cases h3 : t = 3
  · subst h3; decide
  simp [h1, h2, h3]

/-- Summed over a message list: stream + private + group counts equal
the list's length plus the count of messages whose recipient type is
none of the three known categories. -/
theorem tri_recipient_count (l : List Message) :
    l.countP (fun m => m.recipientType == Recipient.STREAM)
      + l.countP (fun m => !(m.recipientType == Recipient.STREAM)
          && !(m.recipientType == Recipient.HUDDLE))
      + l.countP (fun m => !(m.recipientType == Recipient.STREAM)
          && !(m.recipientType == Recipient.PERSONAL))
    = l.length + l.countP (fun m => !(m.recipientType == Recipient.PERSONAL)
        && !(m.recipientType == Recipient.STREAM)
        && !(m.recipientType == Recipient.HUDDLE)) := by
  induction l with
  | nil => rfl
  | cons m l ih =>
    simp only [List.countP_cons, List.length_cons]
    have hind := tri_ind m.recipientType
    omega

/-- A recipient type fails the "other category" test exactly when it is
one of the three known categories. -/
theorem other_category_false_iff (t : Nat) :
    ((!(t == Recipient.PERSONAL) && !(t == Recipient.STREAM)
        && !(t == Recipient.HUDDLE)) = false) ↔
      (t = Recipient.PERSONAL ∨ t = Recipient.STREAM ∨ t = Recipient.HUDDLE) := by
  simp only [Recipient.PERSONAL, Recipient.STREAM, Recipient.HUDDLE]
  by_cases h1 : t = 1
  · subst h1; decide
  by_cases h2 : t = 2
  · subst h2; decide
  by_cases h3 : t = 3
  · subst h3; decide
  simp [h1, h2, h3]

/-- C1 (counterexample): on a store whose one in-window human message
has recipient type 4 — none of stream, personal, huddle — the sum
stream + private + group is 2 while human_messages is 1, refuting
`stream + private + group ≤ human`. -/
theorem claim_c1_counterexample :
    ¬ (stream_messages exDB 0 exRealm 1 + private_messages exDB 0 exRealm 1
        + group_private_messages exDB 0 exRealm 1
      ≤ human_messages exDB 0 exRealm 1) := by
  decide

/-- C1 (amended): for every realm and window,
`human_messages ≤ stream_messages + private_messages +
group_private_messages`, with equality exactly when no message in the
window has a recipient category other than stream, one-on-one or group
direct — a message of any other category is counted twice (once by
`private_messages`, once by `group_private_messages`). -/
theorem claim_c1_category_sum_dominates_human :
    ∀ (db : DB) (now : Int) (realm : Realm) (days_ago : Nat),
      human_messages db now realm days_ago ≤
        stream_messages db now realm days_ago
          + private_messages db now realm days_ago
          + group_private_messages db now realm days_ago ∧
      (stream_messages db now realm days_ago
          + private_messages db now realm days_ago
          + group_private_messages db now realm days_ago
        = human_messages db now realm days_ago ↔
        ∀ m ∈ realm_window_messages db now realm days_ago,
          m.recipientType = Recipient.PERSONAL ∨
            m.recipientType = Recipient.STREAM ∨
            m.recipientType = Recipient.HUDDLE) := by
  intro db now realm d
  have hs : stream_messages db now realm d
      = (realm_window_messages db now realm d).countP
          (fun m => m.recipientType == Recipient.STREAM) := by
    rw [stream_messages, List.countP_eq_length_filter]
  have hp : private_messages db now realm d
      = (realm_window_messages db now realm d).countP
          (fun m => !(m.recipientType == Recipient.STREAM)
            && !(m.recipientType == Recipient.HUDDLE)) := by
    rw [private_messages, List.countP_eq_length_filter]
  have hg : group_private_messages db now realm d
      = (realm_window_messages db now realm d).countP
          (fun m => !(m.recipientType == Recipient.STREAM)
            && !(m.recipientType == Recipient.PERSONAL)) := by
    rw [group_private_messages, List.countP_eq_length_filter]
  have hh : human_messages db now realm d
      = (realm_window_messages db now realm d).length := rfl
  have htri := tri_recipient_count (realm_window_messages db now realm d)
  constructor
  · omega
  · rw [hs, hp, hg, hh]
    constructor
    · intro heq m hm
      have h0 : (realm_window_messages db now realm d).countP
          (fun m => !(m.recipientType == Recipient.PERSONAL)
            && !(m.recipientType == Recipient.STREAM)
            && !(m.recipientType == Recipient.HUDDLE)) = 0 := by
        omega
      have hm0 := List.countP_eq_zero.mp h0 m hm
      exact (other_category_false_iff m.recipientType).mp
        (Bool.not_eq_true _ ▸ eq_false_of_ne_true hm0)
    · intro hall
      have h0 : (realm_window_messages db now realm d).countP
          (fun m => !(m.recipientType == Recipient.PERSONAL)
            && !(m.recipientType == Recipient.STREAM)
            && !(m.recipientType == Recipient.HUDDLE)) = 0 := by
        apply List.countP_eq_zero.mpr
        intro m hm
        have := (other_category_false_iff m.recipientType).mpr (hall m hm)
        simp [this]
      omega

/-- When some identifier in the list is unknown, resolving the list
fails with the error naming an unknown identifier of the list. -/
theorem resolveRealms_error (db : DB) :
    ∀ args : List String,
      (∃ s ∈ args, (db.realms.find? fun r => r.string_id == s) = none) →
      ∃ bad ∈ args, (db.realms.find? fun r => r.string_id == bad) = none ∧
        resolveRealms db args = .error (.realmDoesNotExist bad) := by
  intro args
  induction args with
  | nil =>
    intro h
    rcases h with ⟨s, hs, _⟩
    cases hs
  | cons a rest ih =>
    intro h
    cases hfa : db.realms.find? fun r => r.string_id == a with
    | none =>
      refine ⟨a, by simp, hfa, ?_⟩
      simp only [resolveRealms, get_realm, hfa]
      rfl
    | some r =>
      have h2 : ∃ s ∈ rest, (db.realms.find? fun x => x.string_id == s) = none := by
        rcases h with ⟨s, hs, hnone⟩
        rcases List.mem_cons.mp hs with rfl | hmem
        · rw [hfa] at hnone
          cases hnone
        · exact ⟨s, hmem, hnone⟩
      rcases ih h2 with ⟨bad, hmem, hnone, hres⟩
      refine ⟨bad, by simp [hmem], hnone, ?_⟩
      simp only [resolveRealms, get_realm, hfa, hres]
      rfl

/-- C4: if any supplied tenant identifier names no realm, the whole
invocation aborts with a `CommandError` naming an unknown identifier
and produces no report lines for any tenant. -/
theorem claim_c4_unknown_identifier_aborts_run :
    ∀ (db : DB) (now : Int) (args : List String),
      (∃ s ∈ args, (db.realms.find? fun r => r.string_id == s) = none) →
      ∃ bad ∈ args, (db.realms.find? fun r => r.string_id == bad) = none ∧
        handle db now args = .error (.realmDoesNotExist bad) := by
  intro db now args h
  cases args with
  | nil =>
    rcases h with ⟨s, hs, _⟩
    cases hs
  | cons a rest =>
    rcases resolveRealms_error db (a :: rest) h with ⟨bad, hmem, hnone, hres⟩
    refine ⟨bad, hmem, hnone, ?_⟩
    simp [handle, hres]

/-- C4 witness: with realms `["zulip"]` and arguments
`["zulip", "nope"]`, the run aborts with the error naming `"nope"` and
prints nothing — not even the report of the valid `"zulip"`. -/
theorem claim_c4_witness :
    ∃ bad ∈ ["zulip", "nope"],
      (exDB.realms.find? fun r => r.string_id == bad) = none ∧
      handle exDB 0 ["zulip", "nope"] =
        .error (.realmDoesNotExist bad) :=
  claim_c4_unknown_identifier_aborts_run exDB 0 ["zulip", "nope"] (by decide)

/-- Resolving the identifiers of realms that each look up to themselves
yields exactly those realms, in order. -/
theorem resolveRealms_all_ok (db : DB) :
    ∀ l : List Realm, (∀ r ∈ l, get_realm db r.string_id = .ok r) →
      resolveRealms db (l.map Realm.string_id) = .ok l := by
  intro l
  induction l with
  | nil => intro _; rfl
  | cons r l ih =>
    intro h
    have h1 := h r (by simp)
    have h2 := ih fun x hx => h x (by simp [hx])
    simp only [List.map_cons, resolveRealms, h1, h2]
    rfl

/-- C5: when every realm has a distinct identifier, invoking the command
with every known identifier listed explicitly produces exactly the
output of invoking it with no arguments (which processes all realms in
catalog order). -/
theorem claim_c5_explicit_all_equals_empty_args :
    ∀ (db : DB) (now : Int),
      (db.realms.map Realm.string_id).Nodup →
      handle db now (db.realms.map Realm.string_id) = handle db now [] := by
  intro db now hnd
  have hok : ∀ r ∈ db.realms, get_realm db r.string_id = .ok r := by
    intro r hr
    unfold get_realm
    rw [find?_key_of_nodup Realm.string_id db.realms r hnd hr]
  have hres := resolveRealms_all_ok db db.realms hok
  cases hmap : db.realms.map Realm.string_id with
  | nil => rfl
  | cons s ss =>
    rw [hmap] at hres
    simp [handle, hres]

/-- C5 witness: on the two-realm fixture store, listing both
identifiers explicitly reproduces the empty-argument run. -/
theorem claim_c5_witness :
    handle exDB2 0 (exDB2.realms.map Realm.string_id) = handle exDB2 0 [] :=
  claim_c5_explicit_all_equals_empty_args exDB2 0 (by decide)

/-- C7: each realm's report is the header, then the 1/7/30-day window
blocks in order, then the footer; and each window block prints the
per-user sent counts in descending order on one line, followed by the
stream, one-on-one, API and group totals, in that order. -/
theorem claim_c7_windows_descending_then_totals :
    ∀ (db : DB) (now : Int) (realm : Realm),
      realm_report db now realm
        = realm_report_header db now realm
          ++ ([1, 7, 30].flatMap fun days_ago => window_report db now realm days_ago)
          ++ realm_report_footer db now realm ∧
      ∀ days_ago ∈ [1, 7, 30],
        List.Sorted (· ≥ ·) (sorted_sender_quantities db now realm days_ago) ∧
        window_report db now realm days_ago
          = [s!"In last {days_ago} days, users sent:",
             String.join ((sorted_sender_quantities db now realm days_ago).map
               fun q => s!"{q} "),
             s!"{stream_messages db now realm days_ago} stream messages",
             s!"{private_messages db now realm days_ago} one-on-one private messages",
             s!"{api_messages db now realm days_ago} messages sent via the API",
             s!"{group_private_messages db now realm days_ago} group private messages"] := by
  intro db now realm
  refine ⟨rfl, ?_⟩
  intro days_ago _
  exact ⟨List.sorted_insertionSort _ _, rfl⟩

/-- C9: with duplicate-free user ids, the per-user sent counts the
report computes for the realm's active users sum to at most the realm's
human-message total for the same window — each human message has exactly
one sender, and messages whose senders are deactivated (or otherwise
outside the active-profile list) are missing from the per-user sum but
still counted in the realm total. -/
theorem claim_c9_per_user_sum_le_human_total :
    ∀ (db : DB) (now : Int) (realm : Realm) (days_ago : Nat),
      (db.user_profiles.map UserProfile.id).Nodup →
      ((user_profiles db realm).map fun u =>
          messages_sent_by db now u days_ago).sum ≤
        human_messages db now realm days_ago := by
  intro db now realm d hnd
  have hh : human_messages db now realm d
      = db.messages.countP fun m =>
          (sender_realm db m == some realm.id
            && decide (cutoff now d < m.date_sent)) && isHumanMessage m := by
    rw [human_messages, realm_window_messages, human_messages_all,
      ← List.countP_eq_length_filter, List.countP_filter]
  have hmsb : (fun u => messages_sent_by db now u d)
      = fun u => db.messages.countP fun m =>
          (m.sender == u.id && decide (cutoff now d < m.date_sent))
            && isHumanMessage m := by
    funext u
    rw [messages_sent_by, human_messages_all,
      ← List.countP_eq_length_filter, List.countP_filter]
  rw [hh, hmsb]
  have hndups : ((user_profiles db realm).map UserProfile.id).Nodup := by
    apply List.Nodup.sublist ?_ hnd
    exact List.Sublist.map UserProfile.id (List.filter_sublist db.user_profiles)
  apply sum_countP_le
  intro m
  by_cases hq : ((sender_realm db m == some realm.id
      && decide (cutoff now d < m.date_sent)) && isHumanMessage m) = true
  · rw [if_pos hq]
    calc (user_profiles db realm).countP (fun u =>
          (m.sender == u.id && decide (cutoff now d < m.date_sent))
            && isHumanMessage m)
        ≤ (user_profiles db realm).countP fun u => UserProfile.id u == m.sender := by
          apply List.countP_mono_left
          intro u hu hpu
          simp only [Bool.and_eq_true] at hpu
          have h1 : m.sender = u.id := beq_iff_eq.mp hpu.1.1
          simp [h1]
      _ ≤ 1 := countP_key_le_one UserProfile.id m.sender (user_profiles db realm) hndups
  · rw [if_neg hq]
    have h0 : (user_profiles db realm).countP (fun u =>
        (m.sender == u.id && decide (cutoff now d < m.date_sent))
          && isHumanMessage m) = 0 := by
      apply List.countP_eq_zero.mpr
      intro u hu hpu
      apply hq
      simp only [Bool.and_eq_true] at hpu
      obtain ⟨⟨hsender, hcut⟩, hhuman⟩ := hpu
      rw [user_profiles] at hu
      obtain ⟨humem, hcond⟩ := List.mem_filter.mp hu
      simp only [Bool.and_eq_true] at hcond
      obtain ⟨hrealm, _⟩ := hcond
      have hfind : db.user_profiles.find? (fun x => x.id == m.sender) = some u := by
        have hms : m.sender = u.id := beq_iff_eq.mp hsender
        rw [hms]
        exact find?_key_of_nodup UserProfile.id db.user_profiles u hnd humem
      have hsr : sender_realm db m = some u.realm := by
        rw [sender_realm, hfind]
        rfl
      simp only [Bool.and_eq_true]
      refine ⟨⟨?_, hcut⟩, hhuman⟩
      rw [hsr]
      have hur : u.realm = realm.id := beq_iff_eq.mp hrealm
      rw [hur]
      exact beq_self_eq_true _
    rw [h0]

/-- C9 witness: the fixture store satisfies the duplicate-free-ids
hypothesis and the bound instantiates to `1 ≤ 1` there. -/
theorem claim_c9_witness :
    ((user_profiles exDB exRealm).map fun u =>
        messages_sent_by exDB 0 u 1).sum ≤
      human_messages exDB 0 exRealm 1 :=
  claim_c9_per_user_sum_le_human_total exDB 0 exRealm 1 (by decide)

end RealmStats
